import Mathlib

/-!
Verification development for the AgencyMRR metrics ingestion and ranking
pipeline.  Each definition is a shallow embedding of a function from the
repository sources; section comments name the source file.  JavaScript
numbers are modelled as rationals where the code performs non-integral
arithmetic and as integers elsewhere; JavaScript string identifiers and
ISO timestamps are modelled as `String` values.
-/

/- ===================================================================
   JavaScript numeric and truthiness helpers
   =================================================================== -/

/-- JavaScript `Math.round`: rounds half towards positive infinity,
modelled on rationals. -/
def jsRound (q : ℚ) : ℤ := ⌊q + 1 / 2⌋

/-- JavaScript `x || 1` applied to a possibly-null number: `null`,
`undefined` and `0` are falsy, so they yield 1. -/
def jsOrOne (o : Option ℤ) : ℤ :=
  match o with
  | none => 1
  | some n => if n = 0 then 1 else n

/- ===================================================================
   Stripe adapter, from src/lib/providers/stripeAdapter.ts
   (stripeAdapter.fetchMetrics, MRR part)
   =================================================================== -/

/-- The `recurring` field of a Stripe price: an interval name and an
optional interval count (`interval_count || 1` in the source). -/
structure Recurring where
  interval : String
  interval_count : Option ℤ
deriving Repr, DecidableEq

/-- A Stripe price as consumed by the adapter: `unit_amount` may be null
and `recurring` is absent for one-off prices. -/
structure Price where
  unit_amount : Option ℤ
  recurring : Option Recurring
deriving Repr, DecidableEq

/-- A subscription line item; `price` may be absent. -/
structure SubItem where
  price : Option Price
deriving Repr, DecidableEq

/-- An active Stripe subscription: its currency and its line items. -/
structure Subscription where
  currency : String
  items : List SubItem
deriving Repr, DecidableEq

/-- Monthly-normalized contribution (in minor currency units) of one
line item, mirroring the loop body of `stripeAdapter.fetchMetrics`:
items without a price or without a recurring price are skipped
(contribute nothing), and the `monthlyAmount` accumulator starts at 0,
so unrecognized intervals also contribute 0. -/
def itemMonthly (item : SubItem) : ℚ :=
  match item.price with
  | none => 0
  | some p =>
    match p.recurring with
    | none => 0
    | some r =>
      let amount : ℚ := ((p.unit_amount.getD 0 : ℤ) : ℚ)
      let intervalCount : ℚ := ((jsOrOne r.interval_count : ℤ) : ℚ)
      if r.interval = "month" then amount / intervalCount
      else if r.interval = "year" then amount / intervalCount / 12
      else if r.interval = "week" then amount / intervalCount * (433 / 100)
      else if r.interval = "day" then amount / intervalCount * 30
      else 0

/-- Sum of monthly-normalized amounts over the items of one
subscription. -/
def subMonthly (sub : Subscription) : ℚ :=
  (sub.items.map itemMonthly).sum

/-- The `mrr` accumulator after the subscription loop: the sum in minor
currency units over all subscriptions and items. -/
def mrrCents (subs : List Subscription) : ℚ :=
  (subs.map subMonthly).sum

/-- The adapter's returned `mrr` field:
`Math.round(mrr / 100)` in the source. -/
def adapterMrr (subs : List Subscription) : ℤ :=
  jsRound (mrrCents subs / 100)

/-- The adapter's returned `currency` field:
`(allSubscriptions[0]?.currency || "eur").toUpperCase()` in the source,
with uppercasing modelled on ASCII. -/
def adapterCurrency (subs : List Subscription) : String :=
  let c := match subs.head? with
    | none => "eur"
    | some s => if s.currency = "" then "eur" else s.currency
  String.mk (c.data.map Char.toUpper)

/- Specification-side restatement of the MRR normalization formula, as
the claim words it: for a recurring price of amount A and interval count
N the normalized monthly amount is A/N (month), (A/N)/12 (year),
(A/N)*4.33 (week), (A/N)*30 (day).  Used to compare the code path
against the documented formula. -/

/-- The documented per-price normalization formula. -/
def specNormalizedMonthly (a n : ℚ) (interval : String) : ℚ :=
  if interval = "month" then a / n
  else if interval = "year" then a / n / 12
  else if interval = "week" then a / n * (433 / 100)
  else if interval = "day" then a / n * 30
  else 0

/-- The documented sum: over every line item that has a recurring
price, the normalized monthly amount of that price. -/
def specLineSum (subs : List Subscription) : ℚ :=
  (subs.map (fun sub =>
    (sub.items.map (fun item =>
      match item.price with
      | none => 0
      | some p =>
        match p.recurring with
        | none => 0
        | some r =>
          specNormalizedMonthly ((p.unit_amount.getD 0 : ℤ) : ℚ)
            ((jsOrOne r.interval_count : ℤ) : ℚ) r.interval)).sum)).sum

/- ===================================================================
   Slug generation, from src/lib/supabase/queries.ts (createStartup)

   Source:
     data.name.toLowerCase().trim()
       .replace(/[^\w\s-]/g, "")
       .replace(/[\s_-]+/g, "-")
       .replace(/^-+|-+$/g, "")

   Strings are modelled as lists of characters; case mapping and the
   whitespace class are modelled on their ASCII parts.
   =================================================================== -/

/-- The regex whitespace class, restricted to its ASCII members (space,
tab, line feed, vertical tab, form feed, carriage return). -/
def isJsWhitespace (c : Char) : Bool :=
  c = ' ' || c = '\t' || c = '\n' || c = '\x0b' || c = '\x0c' || c = '\r'

/-- The regex word class: ASCII letters, digits and underscore. -/
def isWordChar (c : Char) : Bool :=
  ('a' ≤ c && c ≤ 'z') || ('A' ≤ c && c ≤ 'Z') || ('0' ≤ c && c ≤ '9') || c = '_'

/-- The character class of the run-collapsing regex: whitespace,
underscore or hyphen. -/
def isSepChar (c : Char) : Bool :=
  isJsWhitespace c || c = '_' || c = '-'

/-- Drop the characters satisfying the predicate from both ends of the
list; models the anchored regexes of trim and the edge-hyphen strip. -/
def dropEdges (p : Char → Bool) (l : List Char) : List Char :=
  (((l.dropWhile p).reverse).dropWhile p).reverse

/-- Replace every maximal run of characters satisfying the predicate by
a single hyphen.  The flag records whether the previous character was
part of a run, so one hyphen is emitted at the start of each run. -/
def collapseRunsAux (p : Char → Bool) (inRun : Bool) : List Char → List Char
  | [] => []
  | c :: cs =>
    if p c then
      (if inRun then [] else ['-']) ++ collapseRunsAux p true cs
    else
      c :: collapseRunsAux p false cs

/-- Global replacement of runs of the class by single hyphens, as
performed by a global regex replace. -/
def collapseRuns (p : Char → Bool) (l : List Char) : List Char :=
  collapseRunsAux p false l

/-- The slug computed at startup creation, step by step as in the
source of createStartup. -/
def createStartupSlug (name : String) : String :=
  let lowered := name.data.map Char.toLower
  let trimmed := dropEdges isJsWhitespace lowered
  let kept := trimmed.filter (fun c => isWordChar c || isJsWhitespace c || c = '-')
  let collapsed := collapseRuns isSepChar kept
  String.mk (dropEdges (fun c => c = '-') collapsed)

/-- ASCII letters and digits, the alphanumeric class named by the
claim. -/
def isAsciiAlphanum (c : Char) : Bool :=
  ('a' ≤ c && c ≤ 'z') || ('A' ≤ c && c ≤ 'Z') || ('0' ≤ c && c ≤ '9')

/-- The slug rule as the claim words it: lowercase the name, collapse
every run of non-alphanumeric characters to a hyphen, and trim leading
and trailing separators. -/
def claimSlugRule (name : String) : String :=
  let lowered := name.data.map Char.toLower
  let collapsed := collapseRuns (fun c => !(isAsciiAlphanum c)) lowered
  String.mk (dropEdges (fun c => c = '-') collapsed)

/- ===================================================================
   Ranking and query layer, from src/lib/supabase/queries.ts
   (getStartupsWithMetrics)
   =================================================================== -/

/-- A current-metrics row, as in the StartupMetrics interface of
queries.ts (bookkeeping timestamp fields that the ranking never reads
are elided). -/
structure StartupMetrics where
  startup_id : String
  currency : String
  mrr : ℤ
  total_revenue : ℤ
  last_30d_revenue : ℤ
  provider : String
deriving Repr, DecidableEq

/-- A sponsorship as selected by the ranking query, as in the
Sponsorship interface of queries.ts. -/
structure Sponsorship where
  id : String
  startup_id : String
  type : String
  category : Option String
  status : String
  stripe_customer_id : Option String
  stripe_subscription_id : Option String
  start_date : Option String
  end_date : Option String
deriving Repr, DecidableEq

/-- A startups row joined with its current-metrics rows, as returned by
the select of getStartupsWithMetrics; the to-many shape of
startup_metrics_current is kept (the code reads element 0). -/
structure StartupRow where
  id : String
  name : String
  slug : String
  country : String
  category : String
  startup_metrics_current : List StartupMetrics
deriving Repr, DecidableEq

/-- A processed startup: the row plus the attached current snapshot and
active sponsorship, as in the StartupWithMetrics interface. -/
structure StartupWithMetrics where
  startup : StartupRow
  metrics : Option StartupMetrics
  sponsorship : Option Sponsorship
deriving Repr, DecidableEq

/-- The sortBy union type of getStartupsWithMetrics. -/
inductive SortField where
  | mrr
  | last30dRevenue
  | totalRevenue
deriving Repr, DecidableEq

/-- Field access `metrics[sortBy]`. -/
def metricsField (f : SortField) (m : StartupMetrics) : ℤ :=
  match f with
  | .mrr => m.mrr
  | .last30dRevenue => m.last_30d_revenue
  | .totalRevenue => m.total_revenue

/-- The comparator key `a.metrics?.[sortBy] || 0`: the requested metric,
with a missing snapshot (or a zero value) read as zero. -/
def sortVal (f : SortField) (s : StartupWithMetrics) : ℤ :=
  match s.metrics with
  | none => 0
  | some m => metricsField f m

/-- The filter set of getStartupsWithMetrics.  In the source an absent
country/category/provider filter and an empty one behave identically
(the filter is applied only when the array is non-empty), so both are
modelled as the empty list. -/
structure RankFilters where
  country : List String
  category : List String
  provider : List String
  minMrr : Option ℤ
  maxMrr : Option ℤ
  sortBy : Option SortField
deriving Repr, DecidableEq

/-- Lookup in the Map built from `sponsorships.map((s) => [s.startup_id, s])`:
with duplicate keys the later entry wins, so this is the last match. -/
def lookupActiveSponsorship (sps : List Sponsorship) (id : String) : Option Sponsorship :=
  sps.reverse.find? (fun s => s.startup_id == id)

/-- The membership test for the sponsored partition:
`s.sponsorship?.status === "active"`. -/
def isSponsoredView (s : StartupWithMetrics) : Bool :=
  match s.sponsorship with
  | none => false
  | some sp => sp.status == "active"

/-- The value `(s.metrics?.mrr || 0)` used by the MRR range filter. -/
def mrrOf (s : StartupWithMetrics) : ℤ :=
  match s.metrics with
  | none => 0
  | some m => m.mrr

/-- The list `allStartups` after all filtering steps of
getStartupsWithMetrics and before the partition and sort: country and
category filters on the startups query, separate fetch of active
sponsorships for the loaded ids, the in-memory keyed join, then the
provider filter and the MRR range filter. -/
def rankedPool (startupsData : List StartupRow) (sponsorshipsTable : List Sponsorship)
    (filters : RankFilters) : List StartupWithMetrics :=
  let base := startupsData.filter (fun s =>
    (filters.country.isEmpty || filters.country.contains s.country) &&
    (filters.category.isEmpty || filters.category.contains s.category))
  let startupIds := base.map (fun s => s.id)
  let sponsorships := sponsorshipsTable.filter
    (fun sp => startupIds.contains sp.startup_id && sp.status == "active")
  let allStartups := base.map (fun s =>
    { startup := s
      metrics := s.startup_metrics_current.head?
      sponsorship := lookupActiveSponsorship sponsorships s.id : StartupWithMetrics })
  let afterProvider := if filters.provider.isEmpty then allStartups else
    allStartups.filter (fun s =>
      match s.metrics with
      | none => false
      | some m => filters.provider.contains m.provider)
  let afterMin := match filters.minMrr with
    | none => afterProvider
    | some v => afterProvider.filter (fun s => v ≤ mrrOf s)
  match filters.maxMrr with
  | none => afterMin
  | some v => afterMin.filter (fun s => mrrOf s ≤ v)

/-- Stable insertion of an element into a list for a descending order
on an integer key: the element is placed before the first position
whose key is not greater.  Together with sortDescBy this is the unique
stable descending sort, which is what Array.prototype.sort with the
comparator `(a, b) => bVal - aVal` produces (ECMAScript sort is
required to be stable). -/
def insertDescBy {α : Type} (key : α → ℤ) (a : α) : List α → List α
  | [] => [a]
  | b :: l => if key b ≤ key a then a :: b :: l else b :: insertDescBy key a l

/-- Stable descending sort by an integer key. -/
def sortDescBy {α : Type} (key : α → ℤ) : List α → List α
  | [] => []
  | a :: l => insertDescBy key a (sortDescBy key l)

/-- getStartupsWithMetrics: the filtered pool is partitioned into
sponsored and non-sponsored startups, each partition is sorted
descending by the requested metric (default mrr), and the sponsored
partition is concatenated first. -/
def getStartupsWithMetrics (startupsData : List StartupRow)
    (sponsorshipsTable : List Sponsorship) (filters : RankFilters) :
    List StartupWithMetrics :=
  let pool := rankedPool startupsData sponsorshipsTable filters
  let key := sortVal (filters.sortBy.getD SortField.mrr)
  sortDescBy key (pool.filter isSponsoredView)
    ++ sortDescBy key (pool.filter (fun s => !isSponsoredView s))

/- ===================================================================
   Persistent store model: the six tables of supabase/schema.sql that
   the sync, callback and webhook routes touch.  Row fields mirror the
   columns those routes read or write; storage operations are modelled
   as always succeeding (their error branches only log or redirect).
   =================================================================== -/

/-- A startups row as read by the OAuth callback (select id, slug). -/
structure StartupsRow where
  id : String
  slug : String
deriving Repr, DecidableEq

/-- A provider_connections row. -/
structure ConnectionRow where
  id : String
  startup_id : String
  provider : String
  provider_account_id : String
  status : String
  connected_at : String
  last_synced_at : String
  updated_at : String
deriving Repr, DecidableEq

/-- A provider_tokens row (unique per provider_connection_id). -/
structure ProviderTokenRow where
  provider_connection_id : String
  access_token : String
  refresh_token : Option String
  scope : String
  updated_at : String
deriving Repr, DecidableEq

/-- A startup_metrics_current row (unique per startup_id). -/
structure MetricsCurrentRow where
  startup_id : String
  currency : String
  mrr : ℤ
  total_revenue : ℤ
  last_30d_revenue : ℤ
  provider : String
  provider_last_synced_at : String
  updated_at : String
deriving Repr, DecidableEq

/-- A startup_metrics_history row; the schema has no uniqueness
constraint on (startup_id, snapshot_date). -/
structure MetricsHistoryRow where
  startup_id : String
  currency : String
  mrr : ℤ
  total_revenue : ℤ
  last_30d_revenue : ℤ
  provider : String
  snapshot_date : String
deriving Repr, DecidableEq

/-- A sponsorships row; created_at is modelled as a creation order
index, used by the webhook fallback ordering. -/
structure SponsorshipRow where
  id : String
  startup_id : String
  type : String
  category : Option String
  status : String
  stripe_customer_id : Option String
  stripe_subscription_id : Option String
  stripe_checkout_session_id : Option String
  start_date : Option String
  end_date : Option String
  created_at : ℕ
  updated_at : String
deriving Repr, DecidableEq

/-- The relational store. -/
structure Db where
  startups : List StartupsRow
  provider_connections : List ConnectionRow
  provider_tokens : List ProviderTokenRow
  startup_metrics_current : List MetricsCurrentRow
  startup_metrics_history : List MetricsHistoryRow
  sponsorships : List SponsorshipRow
deriving Repr, DecidableEq

/-- The ProviderMetrics shape returned by adapter fetchMetrics
(src/lib/providers/types.ts); the optional raw payload is elided. -/
structure ProviderMetrics where
  currency : String
  mrr : ℤ
  totalRevenue : ℤ
  last30dRevenue : ℤ
deriving Repr, DecidableEq

/-- The ProviderConnectionConfig passed to fetchMetrics. -/
structure AdapterConfig where
  providerConnectionId : String
  providerAccountId : String
  accessToken : String
  refreshToken : Option String
deriving Repr, DecidableEq

/-- Upsert into startup_metrics_current with onConflict startup_id:
overwrite the existing row for the startup, or append a new one. -/
def upsertMetricsCurrent (row : MetricsCurrentRow) (tbl : List MetricsCurrentRow) :
    List MetricsCurrentRow :=
  if tbl.any (fun r => r.startup_id == row.startup_id) then
    tbl.map (fun r => if r.startup_id == row.startup_id then row else r)
  else tbl ++ [row]

/-- Upsert into provider_tokens with onConflict provider_connection_id. -/
def upsertProviderToken (row : ProviderTokenRow) (tbl : List ProviderTokenRow) :
    List ProviderTokenRow :=
  if tbl.any (fun t => t.provider_connection_id == row.provider_connection_id) then
    tbl.map (fun t => if t.provider_connection_id == row.provider_connection_id then row else t)
  else tbl ++ [row]

/-- The update of provider_connections setting last_synced_at and
updated_at for one connection id. -/
def updateConnectionSynced (id now : String) (tbl : List ConnectionRow) : List ConnectionRow :=
  tbl.map (fun c => if c.id == id then { c with last_synced_at := now, updated_at := now } else c)

/-- The history rows of a history table for one startup and one
snapshot date; the same-day check of the cron route selects these. -/
def historyFor (tbl : List MetricsHistoryRow) (sid day : String) : List MetricsHistoryRow :=
  tbl.filter (fun h => h.startup_id == sid && h.snapshot_date == day)

/-- The startup_metrics_current row written on a successful sync. -/
def currentRowOf (sid : String) (m : ProviderMetrics) (provider now : String) :
    MetricsCurrentRow :=
  { startup_id := sid, currency := m.currency, mrr := m.mrr,
    total_revenue := m.totalRevenue, last_30d_revenue := m.last30dRevenue,
    provider := provider, provider_last_synced_at := now, updated_at := now }

/-- The startup_metrics_history row written on a successful sync. -/
def histRowOf (sid : String) (m : ProviderMetrics) (provider today : String) :
    MetricsHistoryRow :=
  { startup_id := sid, currency := m.currency, mrr := m.mrr,
    total_revenue := m.totalRevenue, last_30d_revenue := m.last30dRevenue,
    provider := provider, snapshot_date := today }

/- ===================================================================
   Batch sync, from src/app/api/cron/sync-metrics/route.ts and
   getConnectionsToSync of src/lib/supabase/queries.ts
   =================================================================== -/

/-- The shape returned by getConnectionsToSync: the connection columns
plus the tokens of the single provider_tokens row. -/
structure SyncConnection where
  id : String
  startup_id : String
  provider : String
  provider_account_id : String
  access_token : String
  refresh_token : Option String
deriving Repr, DecidableEq

/-- getConnectionsToSync: connections with status connected, joined
with their provider_tokens rows, keeping only those with at least one
token row and reading tokens from the first. -/
def getConnectionsToSync (db : Db) : List SyncConnection :=
  (db.provider_connections.filter (fun c => c.status == "connected")).filterMap
    (fun c =>
      match db.provider_tokens.filter (fun t => t.provider_connection_id == c.id) with
      | [] => none
      | t :: _ => some
          { id := c.id
            startup_id := c.startup_id
            provider := c.provider
            provider_account_id := c.provider_account_id
            access_token := t.access_token
            refresh_token := t.refresh_token })

/-- The ProviderConnectionConfig the cron loop passes to fetchMetrics
for one connection. -/
def syncConfigOf (conn : SyncConnection) : AdapterConfig :=
  { providerConnectionId := conn.id
    providerAccountId := conn.provider_account_id
    accessToken := conn.access_token
    refreshToken := conn.refresh_token }

/-- One element of the results array of the cron route. -/
structure SyncResult where
  startup_id : String
  provider : String
  status : String
  error : Option String
deriving Repr, DecidableEq

/-- The try block of the cron loop body for one connection.  The fetch
parameter models the adapter call; a thrown error from the registry
lookup or from fetchMetrics is an `Except.error`, caught by the
per-connection catch.  The same-day history check uses supabase
`.single()`, whose data is non-null exactly when one row matches, so
the insert is skipped exactly when the matching row count is 1. -/
def cronSyncOne (fetch : AdapterConfig → Except String ProviderMetrics)
    (today now : String) (db : Db) (conn : SyncConnection) : Db × SyncResult :=
  match fetch (syncConfigOf conn) with
  | .error msg =>
    (db, { startup_id := conn.startup_id, provider := conn.provider,
           status := "error", error := some msg })
  | .ok m =>
    let newCurrent := currentRowOf conn.startup_id m conn.provider now
    let db1 := { db with startup_metrics_current :=
      upsertMetricsCurrent newCurrent db.startup_metrics_current }
    let db2 := if (historyFor db1.startup_metrics_history conn.startup_id today).length == 1
      then db1
      else { db1 with startup_metrics_history := db1.startup_metrics_history ++
        [histRowOf conn.startup_id m conn.provider today] }
    let db3 := { db2 with provider_connections :=
      updateConnectionSynced conn.id now db2.provider_connections }
    (db3, { startup_id := conn.startup_id, provider := conn.provider,
            status := "success", error := none })

/-- The cron loop over all connections, threading the store and
collecting one result per connection. -/
def cronSyncAll (fetch : AdapterConfig → Except String ProviderMetrics)
    (today now : String) (db : Db) : List SyncConnection → Db × List SyncResult
  | [] => (db, [])
  | c :: cs =>
    let step := cronSyncOne fetch today now db c
    let rest := cronSyncAll fetch today now step.1 cs
    (rest.1, step.2 :: rest.2)

/-- The response of the cron route. -/
inductive CronResponse where
  | unauthorized
  | ok (synced failed : ℕ) (results : List SyncResult)
deriving Repr, DecidableEq

/-- The cron GET handler: the optional shared-secret bearer check
(an unset CRON_SECRET is modelled as none; the empty string is also
falsy in the source and behaves the same), then the batch sync over
getConnectionsToSync, then the summary. -/
def cronGET (cronSecret authHeader : Option String)
    (fetch : AdapterConfig → Except String ProviderMetrics)
    (today now : String) (db : Db) : CronResponse × Db :=
  let blocked := match cronSecret with
    | none => false
    | some s => !(authHeader == some ("Bearer " ++ s))
  if blocked then (.unauthorized, db)
  else
    let conns := getConnectionsToSync db
    let run := cronSyncAll fetch today now db conns
    (.ok (run.2.filter (fun r => r.status == "success")).length
         (run.2.filter (fun r => r.status == "error")).length run.2, run.1)

/- ===================================================================
   OAuth callback, from src/app/api/providers/stripe/callback/route.ts
   (the handler that upserts the connection, stores the tokens and then
   immediately fetches metrics)
   =================================================================== -/

/-- The connection-row update performed by the callback when a
connection for the (startup, stripe) pair already exists. -/
def markConnected (accountId now : String) (c : ConnectionRow) : ConnectionRow :=
  { c with
    provider_account_id := accountId
    status := "connected"
    connected_at := now
    last_synced_at := now
    updated_at := now }

/-- The token response of the server-side code exchange. -/
structure OAuthToken where
  stripe_user_id : Option String
  access_token : Option String
  refresh_token : Option String
deriving Repr, DecidableEq

/-- The redirect produced by the callback: an error redirect to the
submit page, or the startup detail page with the connected flag. -/
inductive CallbackOutcome where
  | redirectSubmitError (err : String)
  | redirectStartup (slug : String)
deriving Repr, DecidableEq

/-- The callback GET handler.  The exchange parameter models
`stripe.oauth.token` (failure redirects with token_exchange_failed);
fetch models the adapter call; newConnectionId is the id generated for
an inserted provider_connections row.  The metrics-fetch failure branch
only logs, and the history insert after the snapshot upsert has no
same-day existence check. -/
def callbackGET (exchange : String → Except String OAuthToken)
    (fetch : AdapterConfig → Except String ProviderMetrics)
    (newConnectionId now today : String)
    (code state : Option String) (db : Db) : CallbackOutcome × Db :=
  match code, state with
  | some code, some state =>
    (match exchange code with
     | .error _ => (.redirectSubmitError "token_exchange_failed", db)
     | .ok token =>
       match token.stripe_user_id with
       | none => (.redirectSubmitError "missing_stripe_account_id", db)
       | some stripeAccountId =>
         match db.startups.find? (fun s => s.id == state) with
         | none => (.redirectSubmitError "startup_not_found", db)
         | some startup =>
           let existing := db.provider_connections.find?
             (fun c => c.startup_id == startup.id && c.provider == "stripe")
           let connectionId := match existing with
             | some ec => ec.id
             | none => newConnectionId
           let newConns := match existing with
             | some ec => db.provider_connections.map (fun c =>
                 if c.id == ec.id then markConnected stripeAccountId now c else c)
             | none => db.provider_connections ++
                 [{ id := newConnectionId, startup_id := startup.id, provider := "stripe",
                    provider_account_id := stripeAccountId, status := "connected",
                    connected_at := now, last_synced_at := now, updated_at := now }]
           let db1 := { db with provider_connections := newConns }
           let db2 := match token.access_token with
             | none => db1
             | some accessTok =>
               let tokenRow : ProviderTokenRow :=
                 { provider_connection_id := connectionId, access_token := accessTok,
                   refresh_token := token.refresh_token, scope := "read_only",
                   updated_at := now }
               { db1 with provider_tokens := upsertProviderToken tokenRow db1.provider_tokens }
           let db3 := match fetch
               { providerConnectionId := connectionId, providerAccountId := stripeAccountId,
                 accessToken := token.access_token.getD "",
                 refreshToken := token.refresh_token } with
             | .error _ => db2
             | .ok m =>
               let newCurrent := currentRowOf startup.id m "stripe" now
               let dbA := { db2 with startup_metrics_current :=
                 upsertMetricsCurrent newCurrent db2.startup_metrics_current }
               { dbA with startup_metrics_history := dbA.startup_metrics_history ++
                 [histRowOf startup.id m "stripe" today] }
           (.redirectStartup startup.slug, db3))
  | _, _ => (.redirectSubmitError "missing_params", db)

/- ===================================================================
   Billing webhook, from src/app/api/stripe/webhook/route.ts
   (handleCheckoutSessionCompleted)
   =================================================================== -/

/-- The checkout session object of a checkout.session.completed event:
the session id, the metadata the handler reads, and the customer and
subscription identifiers. -/
structure CheckoutSession where
  id : String
  metadata_startup_id : Option String
  metadata_type : Option String
  customer : Option String
  subscription : Option String
deriving Repr, DecidableEq

/-- The row selected by order by created_at descending, limit 1: the
greatest created_at, the earliest such row winning ties. -/
def pickLatestCreated (l : List SponsorshipRow) : Option SponsorshipRow :=
  l.foldl (fun acc sp =>
    match acc with
    | none => some sp
    | some best => if best.created_at < sp.created_at then some sp else some best) none

/-- The sponsorships-row update of the activation branches: set status
active, store the billing identifiers, set start_date to today. -/
def activateSponsorshipRow (customerId subscriptionId today now : String)
    (sp : SponsorshipRow) : SponsorshipRow :=
  { sp with
    status := "active"
    stripe_customer_id := some customerId
    stripe_subscription_id := some subscriptionId
    start_date := some today
    updated_at := now }

/-- handleCheckoutSessionCompleted: abort if any metadata is missing;
find the sponsorship by stored checkout-session id (`.single()`, so the
lookup succeeds exactly when one row matches) and set it active with
start_date today; otherwise activate the most recent pending
sponsorship of the same startup and type, if any. -/
def handleCheckoutSessionCompleted (session : CheckoutSession) (today now : String)
    (db : Db) : Db :=
  match session.metadata_startup_id, session.metadata_type,
      session.customer, session.subscription with
  | some startupId, some type, some customerId, some subscriptionId =>
    let activate := fun (targetId : String) =>
      { db with sponsorships := db.sponsorships.map (fun sp =>
          if sp.id == targetId then
            activateSponsorshipRow customerId subscriptionId today now sp
          else sp) }
    let bySession := db.sponsorships.filter
      (fun sp => sp.stripe_checkout_session_id == some session.id)
    (match (if bySession.length == 1 then bySession.head? else none) with
     | some sponsorship => activate sponsorship.id
     | none =>
       let pending := db.sponsorships.filter (fun sp =>
         sp.startup_id == startupId && sp.type == type && sp.status == "pending")
       match pickLatestCreated pending with
       | none => db
       | some fallback => activate fallback.id)
  | _, _, _, _ => db

/-- The result the cron loop records for one connection, determined by
that connection's own fetch outcome alone. -/
def cronResultOf (fetch : AdapterConfig → Except String ProviderMetrics)
    (c : SyncConnection) : SyncResult :=
  match fetch (syncConfigOf c) with
  | .error msg => { startup_id := c.startup_id, provider := c.provider,
                    status := "error", error := some msg }
  | .ok _ => { startup_id := c.startup_id, provider := c.provider,
               status := "success", error := none }

/-- The provider_connections rows of one (startup, provider) pair. -/
def pairConnections (db : Db) (sid provider : String) : List ConnectionRow :=
  db.provider_connections.filter (fun c => c.startup_id == sid && c.provider == provider)

/- ===================================================================
   General list lemmas used by several proofs
   =================================================================== -/

theorem find?_eq_head_filter {α : Type} (p : α → Bool) (l : List α) :
    l.find? p = (l.filter p).head? := by
  induction l with
  | nil => rfl
  | cons a l ih =>
    by_cases h : p a
    · simp [List.find?_cons, List.filter_cons, h]
    · simp only [List.find?_cons, List.filter_cons]
      rw [if_neg h]
      simp only [Bool.not_eq_true] at h
      rw [h]
      exact ih

theorem length_filter_map_eq {α : Type} (p : α → Bool) (f : α → α)
    (hf : ∀ x, p (f x) = p x) (l : List α) :
    ((l.map f).filter p).length = (l.filter p).length := by
  induction l with
  | nil => rfl
  | cons a l ih =>
    simp only [List.map_cons, List.filter_cons, hf a]
    by_cases h : p a
    · simp [h, ih]
    · simp only [Bool.not_eq_true] at h
      simp [h, ih]


/- ===================================================================
   Claim theorems: adapter MRR normalization
   =================================================================== -/

theorem itemMonthly_eq_spec (item : SubItem) :
    itemMonthly item =
      (match item.price with
       | none => 0
       | some p =>
         match p.recurring with
         | none => 0
         | some r =>
           specNormalizedMonthly ((p.unit_amount.getD 0 : ℤ) : ℚ)
             ((jsOrOne r.interval_count : ℤ) : ℚ) r.interval) := by
  rcases item with ⟨_ | ⟨ua, _ | r⟩⟩ <;> rfl

theorem specLineSum_eq_mrrCents (subs : List Subscription) :
    specLineSum subs = mrrCents subs := by
  unfold specLineSum mrrCents subMonthly
  congr 1

/-- C2: the adapter's MRR equals the rounded division by 100 of the sum
over all line items with a recurring price of the documented
monthly-normalized amount (A/N for month; (A/N)/12 for year; (A/N)*4.33
for week; (A/N)*30 for day); a single 1200-minor-unit yearly price with
interval count 1 contributes 100 minor units, i.e. one whole currency
unit of MRR. -/
theorem adapterMrr_eq_spec_normalization :
    (∀ subs : List Subscription, adapterMrr subs = jsRound (specLineSum subs / 100)) ∧
    specLineSum [⟨"eur", [⟨some ⟨some 1200, some ⟨"year", some 1⟩⟩⟩]⟩] = 100 ∧
    adapterMrr [⟨"eur", [⟨some ⟨some 1200, some ⟨"year", some 1⟩⟩⟩]⟩] = 1 := by
  refine ⟨fun subs => ?_, ?_, ?_⟩
  · rw [specLineSum_eq_mrrCents]; rfl
  · simp [specLineSum, specNormalizedMonthly, jsOrOne]
    norm_num
  · simp [adapterMrr, mrrCents, subMonthly, itemMonthly, jsOrOne, jsRound]
    norm_num

/-- C9: line items with no price or a non-recurring price are skipped,
a recurring price whose interval is none of month, year, week, day
contributes zero, and an account whose active subscriptions consist
only of such items reports MRR 0 (the computation is total, so no
error is raised). -/
theorem unrecognized_intervals_contribute_zero :
    (∀ item : SubItem, item.price = none → itemMonthly item = 0) ∧
    (∀ (item : SubItem) (p : Price), item.price = some p → p.recurring = none →
      itemMonthly item = 0) ∧
    (∀ (item : SubItem) (p : Price) (r : Recurring), item.price = some p →
      p.recurring = some r → r.interval ≠ "month" → r.interval ≠ "year" →
      r.interval ≠ "week" → r.interval ≠ "day" → itemMonthly item = 0) ∧
    (∀ subs : List Subscription,
      (∀ sub ∈ subs, ∀ item ∈ sub.items, ∀ (p : Price) (r : Recurring),
        item.price = some p → p.recurring = some r →
        r.interval ≠ "month" ∧ r.interval ≠ "year" ∧
        r.interval ≠ "week" ∧ r.interval ≠ "day") →
      adapterMrr subs = 0) := by
  have hnone : ∀ item : SubItem, item.price = none → itemMonthly item = 0 := by
    intro item h
    rcases item with ⟨price⟩
    simp only at h
    subst h
    rfl
  have hnorec : ∀ (item : SubItem) (p : Price), item.price = some p →
      p.recurring = none → itemMonthly item = 0 := by
    intro item p h hr
    rcases item with ⟨price⟩
    simp only at h
    subst h
    simp [itemMonthly, hr]
  have hbad : ∀ (item : SubItem) (p : Price) (r : Recurring), item.price = some p →
      p.recurring = some r → r.interval ≠ "month" → r.interval ≠ "year" →
      r.interval ≠ "week" → r.interval ≠ "day" → itemMonthly item = 0 := by
    intro item p r h hr hm hy hw hd
    rcases item with ⟨price⟩
    simp only at h
    subst h
    simp [itemMonthly, hr, hm, hy, hw, hd]
  refine ⟨hnone, hnorec, hbad, ?_⟩
  intro subs hall
  have hzero : mrrCents subs = 0 := by
    apply List.sum_eq_zero
    intro x hx
    rcases List.mem_map.mp hx with ⟨sub, hsub, rfl⟩
    apply List.sum_eq_zero
    intro y hy
    rcases List.mem_map.mp hy with ⟨item, hitem, rfl⟩
    rcases hp : item.price with _ | p
    · exact hnone item hp
    · rcases hr : p.recurring with _ | r
      · exact hnorec item p hp hr
      · obtain ⟨h1, h2, h3, h4⟩ := hall sub hsub item hitem p r hp hr
        exact hbad item p r hp hr h1 h2 h3 h4
  rw [adapterMrr, hzero]
  norm_num [jsRound]

/-- C7: when a cron secret is configured and the caller's bearer
credential differs, the batch sync returns unauthorized with the store
untouched, before reading or syncing any connection. -/
theorem cron_unauthorized_rejected_before_work
    (s : String) (auth : Option String)
    (fetch : AdapterConfig → Except String ProviderMetrics) (today now : String) (db : Db)
    (h : auth ≠ some ("Bearer " ++ s)) :
    cronGET (some s) auth fetch today now db = (CronResponse.unauthorized, db) := by
  have hb : (auth == some ("Bearer " ++ s)) = false := beq_eq_false_iff_ne.mpr h
  simp [cronGET, hb]

/-- Witness for C7 at a concrete store and credential. -/
theorem cron_unauthorized_rejected_before_work_witness :
    cronGET (some "sec") none (fun _ => Except.error "e") "d" "t"
        { startups := [], provider_connections := [], provider_tokens := [],
          startup_metrics_current := [], startup_metrics_history := [], sponsorships := [] } =
      (CronResponse.unauthorized,
        { startups := [], provider_connections := [], provider_tokens := [],
          startup_metrics_current := [], startup_metrics_history := [], sponsorships := [] }) :=
  cron_unauthorized_rejected_before_work "sec" none (fun _ => Except.error "e") "d" "t" _
    (by decide)

/-- Witness for C9: a priceless item, a non-recurring item and a
quarterly-interval item each contribute zero, and an account holding
only such items reports MRR 0. -/
theorem unrecognized_intervals_contribute_zero_witness :
    itemMonthly ⟨none⟩ = 0 ∧
    itemMonthly ⟨some ⟨some 900, none⟩⟩ = 0 ∧
    itemMonthly ⟨some ⟨some 5000, some ⟨"quarter", some 2⟩⟩⟩ = 0 ∧
    adapterMrr [⟨"usd", [⟨none⟩, ⟨some ⟨some 900, none⟩⟩,
      ⟨some ⟨some 5000, some ⟨"quarter", some 2⟩⟩⟩]⟩] = 0 := by
  refine ⟨unrecognized_intervals_contribute_zero.1 ⟨none⟩ rfl,
    unrecognized_intervals_contribute_zero.2.1 ⟨some ⟨some 900, none⟩⟩ ⟨some 900, none⟩ rfl rfl,
    unrecognized_intervals_contribute_zero.2.2.1 ⟨some ⟨some 5000, some ⟨"quarter", some 2⟩⟩⟩
      ⟨some 5000, some ⟨"quarter", some 2⟩⟩ ⟨"quarter", some 2⟩ rfl rfl
      (by decide) (by decide) (by decide) (by decide),
    unrecognized_intervals_contribute_zero.2.2.2 _ ?_⟩
  intro sub hsub item hitem p r hp hr
  simp only [List.mem_singleton] at hsub
  subst hsub
  simp only [List.mem_cons, List.not_mem_nil, or_false] at hitem
  rcases hitem with rfl | rfl | rfl
  · cases hp
  · simp only at hp
    injection hp with hp
    subst hp
    cases hr
  · simp only at hp
    injection hp with hp
    subst hp
    simp only at hr
    injection hr with hr
    subst hr
    exact ⟨by decide, by decide, by decide, by decide⟩

/- ===================================================================
   Stable-sort lemmas and the ranking claim
   =================================================================== -/

theorem mem_insertDescBy {α : Type} (key : α → ℤ) (a x : α) (l : List α) :
    x ∈ insertDescBy key a l ↔ x = a ∨ x ∈ l := by
  induction l with
  | nil => simp [insertDescBy]
  | cons b l ih =>
    simp only [insertDescBy]
    by_cases h : key b ≤ key a
    · simp [h]
    · simp only [h, if_false, List.mem_cons, ih]
      tauto

theorem mem_sortDescBy {α : Type} (key : α → ℤ) (x : α) (l : List α) :
    x ∈ sortDescBy key l ↔ x ∈ l := by
  induction l with
  | nil => simp [sortDescBy]
  | cons a l ih => simp [sortDescBy, mem_insertDescBy, ih]

theorem sorted_insertDescBy {α : Type} (key : α → ℤ) (a : α) (l : List α)
    (h : l.Pairwise (fun u v => key v ≤ key u)) :
    (insertDescBy key a l).Pairwise (fun u v => key v ≤ key u) := by
  induction l with
  | nil => simp [insertDescBy]
  | cons b l ih =>
    rcases List.pairwise_cons.mp h with ⟨hb, hl⟩
    by_cases hba : key b ≤ key a
    · simp only [insertDescBy, if_pos hba]
      refine List.pairwise_cons.mpr ⟨?_, h⟩
      intro v hv
      rcases List.mem_cons.mp hv with rfl | hv
      · exact hba
      · exact le_trans (hb v hv) hba
    · simp only [insertDescBy, if_neg hba]
      refine List.pairwise_cons.mpr ⟨?_, ih hl⟩
      intro v hv
      rcases (mem_insertDescBy key a v l).mp hv with rfl | hv
      · exact le_of_not_le hba
      · exact hb v hv

theorem sorted_sortDescBy {α : Type} (key : α → ℤ) (l : List α) :
    (sortDescBy key l).Pairwise (fun u v => key v ≤ key u) := by
  induction l with
  | nil => simp [sortDescBy]
  | cons a l ih => exact sorted_insertDescBy key a _ ih

theorem filter_insertDescBy {α : Type} (key : α → ℤ) (c : ℤ) (a : α) (l : List α) :
    (insertDescBy key a l).filter (fun x => decide (key x = c)) =
      if key a = c then a :: l.filter (fun x => decide (key x = c))
      else l.filter (fun x => decide (key x = c)) := by
  induction l with
  | nil => by_cases h : key a = c <;> simp [insertDescBy, h]
  | cons b l ih =>
    by_cases hba : key b ≤ key a
    · simp only [insertDescBy, if_pos hba]
      by_cases hac : key a = c <;> simp [List.filter_cons, hac]
    · simp only [insertDescBy, if_neg hba]
      by_cases hac : key a = c
      · have hbc : ¬(key b = c) := by
          intro hbc
          exact hba (by rw [hbc, hac])
        simp [List.filter_cons, hbc, ih, hac]
      · by_cases hbc : key b = c <;> simp [List.filter_cons, hbc, ih, hac]

theorem filter_sortDescBy {α : Type} (key : α → ℤ) (c : ℤ) (l : List α) :
    (sortDescBy key l).filter (fun x => decide (key x = c)) =
      l.filter (fun x => decide (key x = c)) := by
  induction l with
  | nil => simp [sortDescBy]
  | cons a l ih =>
    simp only [sortDescBy, filter_insertDescBy, ih, List.filter_cons]
    by_cases h : key a = c <;> simp [h]

/-- The sort key of a ranking call: the requested metric, defaulting to
mrr as in `filters?.sortBy || "mrr"`. -/
def sortKeyOf (filters : RankFilters) : StartupWithMetrics → ℤ :=
  sortVal (filters.sortBy.getD SortField.mrr)

/-- The sorted sponsored partition of a ranking call. -/
def sponsoredPart (d : List StartupRow) (sps : List Sponsorship) (f : RankFilters) :
    List StartupWithMetrics :=
  sortDescBy (sortKeyOf f) ((rankedPool d sps f).filter isSponsoredView)

/-- The sorted non-sponsored partition of a ranking call. -/
def nonSponsoredPart (d : List StartupRow) (sps : List Sponsorship) (f : RankFilters) :
    List StartupWithMetrics :=
  sortDescBy (sortKeyOf f) ((rankedPool d sps f).filter (fun s => !isSponsoredView s))

/-- C1: the ranked list is the sponsored partition followed by the
non-sponsored partition; every element of the first partition carries
an active sponsorship and none of the second does (so every sponsored
startup is placed strictly before every non-sponsored one, regardless
of metric values, as the index bound at the end states); within each
partition the order is descending by the requested metric with missing
metrics read as zero; and the sort is stable: restricted to any key
value, each partition lists exactly the pool elements of that key in
their input order. -/
theorem listRanked_tier_and_order
    (d : List StartupRow) (sps : List Sponsorship) (f : RankFilters) :
    getStartupsWithMetrics d sps f = sponsoredPart d sps f ++ nonSponsoredPart d sps f ∧
    (sponsoredPart d sps f).all isSponsoredView = true ∧
    (nonSponsoredPart d sps f).all (fun s => !isSponsoredView s) = true ∧
    (sponsoredPart d sps f).Pairwise (fun u v => sortKeyOf f v ≤ sortKeyOf f u) ∧
    (nonSponsoredPart d sps f).Pairwise (fun u v => sortKeyOf f v ≤ sortKeyOf f u) ∧
    (∀ c : ℤ, (sponsoredPart d sps f).filter (fun s => decide (sortKeyOf f s = c)) =
      ((rankedPool d sps f).filter isSponsoredView).filter
        (fun s => decide (sortKeyOf f s = c))) ∧
    (∀ c : ℤ, (nonSponsoredPart d sps f).filter (fun s => decide (sortKeyOf f s = c)) =
      ((rankedPool d sps f).filter (fun s => !isSponsoredView s)).filter
        (fun s => decide (sortKeyOf f s = c))) ∧
    (∀ (i j : ℕ) (hi : i < (getStartupsWithMetrics d sps f).length)
        (hj : j < (getStartupsWithMetrics d sps f).length),
      isSponsoredView ((getStartupsWithMetrics d sps f).get ⟨i, hi⟩) = true →
      isSponsoredView ((getStartupsWithMetrics d sps f).get ⟨j, hj⟩) = false → i < j) := by
  have hall1 : ∀ s ∈ sponsoredPart d sps f, isSponsoredView s = true := by
    intro s hs
    have hm := (mem_sortDescBy _ s _).mp hs
    exact (List.mem_filter.mp hm).2
  have hall2 : ∀ s ∈ nonSponsoredPart d sps f, isSponsoredView s = false := by
    intro s hs
    have hm := (mem_sortDescBy _ s _).mp hs
    have h2 := (List.mem_filter.mp hm).2
    simpa using h2
  refine ⟨rfl, List.all_eq_true.mpr hall1,
    List.all_eq_true.mpr (fun x hx => by simp [hall2 x hx]),
    sorted_sortDescBy _ _, sorted_sortDescBy _ _,
    fun c => filter_sortDescBy _ c _, fun c => filter_sortDescBy _ c _, ?_⟩
  intro i j hi hj hsi hsj
  have hdec : getStartupsWithMetrics d sps f =
      sponsoredPart d sps f ++ nonSponsoredPart d sps f := rfl
  rcases Nat.lt_or_ge i (sponsoredPart d sps f).length with hil | hil
  · rcases Nat.lt_or_ge j (sponsoredPart d sps f).length with hjl | hjl
    · exfalso
      have hjget : (getStartupsWithMetrics d sps f).get ⟨j, hj⟩ =
          (sponsoredPart d sps f).get ⟨j, hjl⟩ := by
        simp only [hdec, List.get_eq_getElem]
        exact List.getElem_append_left hjl
      rw [hjget] at hsj
      have hmem := hall1 ((sponsoredPart d sps f).get ⟨j, hjl⟩) (List.get_mem _ j hjl)
      rw [hsj] at hmem
      cases hmem
    · omega
  · exfalso
    have hi2 : i - (sponsoredPart d sps f).length < (nonSponsoredPart d sps f).length := by
      have : (getStartupsWithMetrics d sps f).length =
          (sponsoredPart d sps f).length + (nonSponsoredPart d sps f).length := by
        rw [hdec, List.length_append]
      omega
    have higet : (getStartupsWithMetrics d sps f).get ⟨i, hi⟩ =
        (nonSponsoredPart d sps f).get ⟨i - (sponsoredPart d sps f).length, hi2⟩ := by
      simp only [hdec, List.get_eq_getElem]
      exact List.getElem_append_right hil
    rw [higet] at hsi
    have hmem := hall2
      ((nonSponsoredPart d sps f).get ⟨i - (sponsoredPart d sps f).length, hi2⟩)
      (List.get_mem _ _ hi2)
    rw [hsi] at hmem
    cases hmem

/-- A non-sponsored example startup with MRR 1000. -/
def exampleStartupA : StartupRow :=
  ⟨"a", "Startup A", "a", "US", "saas", [⟨"a", "EUR", 1000, 0, 0, "stripe"⟩]⟩

/-- A sponsored example startup with MRR 10. -/
def exampleStartupB : StartupRow :=
  ⟨"b", "Startup B", "b", "US", "saas", [⟨"b", "EUR", 10, 0, 0, "stripe"⟩]⟩

/-- The active sponsorship of the example startup B. -/
def exampleSponsorshipB : Sponsorship :=
  ⟨"sp1", "b", "featured", none, "active", none, none, none, none⟩

/-- An empty filter set sorting by mrr. -/
def exampleMrrFilters : RankFilters := ⟨[], [], [], none, none, some SortField.mrr⟩

/-- Witness for C1: with non-sponsored A at MRR 1000 and sponsored B at
MRR 10, the ranked list is B then A, and the tier bound applies at
indices 0 and 1. -/
theorem listRanked_tier_and_order_witness :
    getStartupsWithMetrics [exampleStartupA, exampleStartupB] [exampleSponsorshipB]
        exampleMrrFilters =
      [⟨exampleStartupB, some ⟨"b", "EUR", 10, 0, 0, "stripe"⟩, some exampleSponsorshipB⟩,
       ⟨exampleStartupA, some ⟨"a", "EUR", 1000, 0, 0, "stripe"⟩, none⟩] ∧
    (0 : ℕ) < 1 := by
  refine ⟨by decide, ?_⟩
  exact (listRanked_tier_and_order [exampleStartupA, exampleStartupB] [exampleSponsorshipB]
    exampleMrrFilters).2.2.2.2.2.2.2 0 1 (by decide) (by decide) (by decide) (by decide)

/- ===================================================================
   Batch sync claims
   =================================================================== -/

theorem cronSyncAll_results (fetch : AdapterConfig → Except String ProviderMetrics)
    (today now : String) (db : Db) (conns : List SyncConnection) :
    (cronSyncAll fetch today now db conns).2 = conns.map (cronResultOf fetch) := by
  induction conns generalizing db with
  | nil => rfl
  | cons c cs ih =>
    simp only [cronSyncAll, List.map_cons]
    refine congrArg₂ _ ?_ (ih _)
    unfold cronSyncOne cronResultOf
    rcases fetch (syncConfigOf c) with msg | m <;> rfl

/-- C6: every connection of a batch is recorded independently: the
result list maps each connection to the outcome of its own adapter
call; in particular, with three connections where only the second's
adapter call throws, the cron route returns HTTP success with three
results, one error carrying the message and two successes, counting
synced 2 and failed 1. -/
theorem batch_sync_partial_failure
    (fetch : AdapterConfig → Except String ProviderMetrics)
    (auth : Option String) (today now : String) (db : Db)
    (c1 c2 c3 : SyncConnection) (m1 m3 : ProviderMetrics) (msg : String)
    (hconns : getConnectionsToSync db = [c1, c2, c3])
    (h1 : fetch (syncConfigOf c1) = Except.ok m1)
    (h2 : fetch (syncConfigOf c2) = Except.error msg)
    (h3 : fetch (syncConfigOf c3) = Except.ok m3) :
    (∀ (db2 : Db) (conns : List SyncConnection),
      (cronSyncAll fetch today now db2 conns).2 = conns.map (cronResultOf fetch) ∧
      ((cronSyncAll fetch today now db2 conns).2).length = conns.length) ∧
    (cronGET none auth fetch today now db).1 =
      CronResponse.ok 2 1
        [{ startup_id := c1.startup_id, provider := c1.provider,
           status := "success", error := none },
         { startup_id := c2.startup_id, provider := c2.provider,
           status := "error", error := some msg },
         { startup_id := c3.startup_id, provider := c3.provider,
           status := "success", error := none }] := by
  constructor
  · intro db2 conns
    refine ⟨cronSyncAll_results fetch today now db2 conns, ?_⟩
    rw [cronSyncAll_results]
    exact List.length_map _ _
  · have hr1 : cronResultOf fetch c1 =
        { startup_id := c1.startup_id, provider := c1.provider,
          status := "success", error := none } := by
      unfold cronResultOf
      rw [h1]
    have hr2 : cronResultOf fetch c2 =
        { startup_id := c2.startup_id, provider := c2.provider,
          status := "error", error := some msg } := by
      unfold cronResultOf
      rw [h2]
    have hr3 : cronResultOf fetch c3 =
        { startup_id := c3.startup_id, provider := c3.provider,
          status := "success", error := none } := by
      unfold cronResultOf
      rw [h3]
    unfold cronGET
    simp only [hconns, cronSyncAll_results, List.map_cons, List.map_nil, hr1, hr2, hr3]
    simp [List.filter]

/-- A store with three connected startups, each holding a token. -/
def exampleSyncDb : Db :=
  { startups := []
    provider_connections :=
      [⟨"cn1", "s1", "stripe", "acct_1", "connected", "t0", "t0", "t0"⟩,
       ⟨"cn2", "s2", "stripe", "acct_2", "connected", "t0", "t0", "t0"⟩,
       ⟨"cn3", "s3", "stripe", "acct_3", "connected", "t0", "t0", "t0"⟩]
    provider_tokens :=
      [⟨"cn1", "tok_1", none, "read_only", "t0"⟩,
       ⟨"cn2", "tok_2", none, "read_only", "t0"⟩,
       ⟨"cn3", "tok_3", none, "read_only", "t0"⟩]
    startup_metrics_current := []
    startup_metrics_history := []
    sponsorships := [] }

/-- An adapter stub that throws for the second account only. -/
def exampleFlakyFetch : AdapterConfig → Except String ProviderMetrics :=
  fun cfg => if cfg.providerAccountId == "acct_2" then Except.error "boom"
    else Except.ok ⟨"EUR", 1, 2, 3⟩

/-- Witness for C6 at a concrete three-connection store whose second
adapter call throws. -/
theorem batch_sync_partial_failure_witness :
    (cronGET none none exampleFlakyFetch "d" "t" exampleSyncDb).1 =
      CronResponse.ok 2 1
        [{ startup_id := "s1", provider := "stripe", status := "success", error := none },
         { startup_id := "s2", provider := "stripe", status := "error", error := some "boom" },
         { startup_id := "s3", provider := "stripe", status := "success", error := none }] :=
  (batch_sync_partial_failure exampleFlakyFetch none "d" "t" exampleSyncDb
    ⟨"cn1", "s1", "stripe", "acct_1", "tok_1", none⟩
    ⟨"cn2", "s2", "stripe", "acct_2", "tok_2", none⟩
    ⟨"cn3", "s3", "stripe", "acct_3", "tok_3", none⟩
    ⟨"EUR", 1, 2, 3⟩ ⟨"EUR", 1, 2, 3⟩ "boom"
    (by decide) rfl rfl rfl).2


/- ===================================================================
   History-dedup claims
   =================================================================== -/

theorem find_upsertMetricsCurrent (row : MetricsCurrentRow) (tbl : List MetricsCurrentRow) :
    (upsertMetricsCurrent row tbl).find? (fun r => r.startup_id == row.startup_id) =
      some row := by
  unfold upsertMetricsCurrent
  by_cases h : tbl.any (fun r => r.startup_id == row.startup_id) = true
  · rw [if_pos h]
    induction tbl with
    | nil => simp at h
    | cons a l ih =>
      simp only [List.map_cons]
      by_cases ha : (a.startup_id == row.startup_id) = true
      · rw [if_pos ha]
        exact List.find?_cons_of_pos _ (by simp)
      · rw [if_neg ha]
        rw [List.find?_cons_of_neg _ (by simp [ha])]
        apply ih
        simp only [List.any_cons, Bool.or_eq_true] at h
        rcases h with h1 | h2
        · exact absurd h1 ha
        · exact h2
  · rw [if_neg h]
    rw [List.find?_append]
    have hnone : tbl.find? (fun r => r.startup_id == row.startup_id) = none := by
      rw [List.find?_eq_none]
      intro x hx hpx
      exact h (List.any_eq_true.mpr ⟨x, hx, hpx⟩)
    rw [hnone]
    simp

theorem cronSyncOne_ok_history (fetch : AdapterConfig → Except String ProviderMetrics)
    (today now : String) (db : Db) (conn : SyncConnection) (m : ProviderMetrics)
    (hf : fetch (syncConfigOf conn) = Except.ok m) :
    ((cronSyncOne fetch today now db conn).1).startup_metrics_history =
      if (historyFor db.startup_metrics_history conn.startup_id today).length == 1
      then db.startup_metrics_history
      else db.startup_metrics_history ++ [histRowOf conn.startup_id m conn.provider today] := by
  unfold cronSyncOne
  rw [hf]
  by_cases h :
      (historyFor db.startup_metrics_history conn.startup_id today).length == 1 <;>
    simp [h]

theorem cronSyncOne_ok_current (fetch : AdapterConfig → Except String ProviderMetrics)
    (today now : String) (db : Db) (conn : SyncConnection) (m : ProviderMetrics)
    (hf : fetch (syncConfigOf conn) = Except.ok m) :
    ((cronSyncOne fetch today now db conn).1).startup_metrics_current =
      upsertMetricsCurrent (currentRowOf conn.startup_id m conn.provider now)
        db.startup_metrics_current := by
  unfold cronSyncOne
  rw [hf]
  by_cases h :
      (historyFor db.startup_metrics_history conn.startup_id today).length == 1 <;>
    simp [h]

/-- C3, amended: syncing the same connection twice through the batch
sync engine within the same calendar day, both fetches succeeding and
no history row existing for (startup, day) beforehand, leaves exactly
one history row for that pair, and the current snapshot holds the
second call's values; the batch engine checks for an existing same-day
row before inserting, but the OAuth-callback sync path inserts history
unconditionally, so a same-day re-sync through the callback duplicates
the row (see the counterexample). -/
theorem cron_history_once_per_day
    (fetch1 fetch2 : AdapterConfig → Except String ProviderMetrics)
    (today now1 now2 : String) (db : Db) (conn : SyncConnection)
    (m1 m2 : ProviderMetrics)
    (h1 : fetch1 (syncConfigOf conn) = Except.ok m1)
    (h2 : fetch2 (syncConfigOf conn) = Except.ok m2)
    (h0 : historyFor db.startup_metrics_history conn.startup_id today = []) :
    (historyFor
        ((cronSyncOne fetch2 today now2
          (cronSyncOne fetch1 today now1 db conn).1 conn).1).startup_metrics_history
        conn.startup_id today).length = 1 ∧
    ((cronSyncOne fetch2 today now2
        (cronSyncOne fetch1 today now1 db conn).1 conn).1).startup_metrics_current.find?
        (fun r => r.startup_id == conn.startup_id) =
      some (currentRowOf conn.startup_id m2 conn.provider now2) := by
  have e1h : ((cronSyncOne fetch1 today now1 db conn).1).startup_metrics_history =
      db.startup_metrics_history ++ [histRowOf conn.startup_id m1 conn.provider today] := by
    rw [cronSyncOne_ok_history fetch1 today now1 db conn m1 h1, h0]
    simp
  have hAfor : historyFor
      ((cronSyncOne fetch1 today now1 db conn).1).startup_metrics_history
      conn.startup_id today = [histRowOf conn.startup_id m1 conn.provider today] := by
    unfold historyFor at h0 ⊢
    rw [e1h, List.filter_append, h0]
    simp [histRowOf]
  have e2h : ((cronSyncOne fetch2 today now2
      (cronSyncOne fetch1 today now1 db conn).1 conn).1).startup_metrics_history =
      ((cronSyncOne fetch1 today now1 db conn).1).startup_metrics_history := by
    rw [cronSyncOne_ok_history fetch2 today now2 _ conn m2 h2, hAfor]
    simp
  constructor
  · rw [e2h, hAfor]
    rfl
  · rw [cronSyncOne_ok_current fetch2 today now2 _ conn m2 h2]
    have hfind := find_upsertMetricsCurrent (currentRowOf conn.startup_id m2 conn.provider now2)
      ((cronSyncOne fetch1 today now1 db conn).1.startup_metrics_current)
    simpa [currentRowOf] using hfind

/-- Witness for C3's amended theorem at a concrete connection and empty
store. -/
theorem cron_history_once_per_day_witness :
    (historyFor
        ((cronSyncOne (fun _ => Except.ok ⟨"EUR", 700, 13000, 1600⟩) "2026-01-01" "t2"
          (cronSyncOne (fun _ => Except.ok ⟨"EUR", 500, 12000, 1500⟩) "2026-01-01" "t1"
            ⟨[], [], [], [], [], []⟩
            ⟨"cn1", "s1", "stripe", "acct_1", "tok", none⟩).1
          ⟨"cn1", "s1", "stripe", "acct_1", "tok", none⟩).1).startup_metrics_history
        "s1" "2026-01-01").length = 1 ∧
    ((cronSyncOne (fun _ => Except.ok ⟨"EUR", 700, 13000, 1600⟩) "2026-01-01" "t2"
        (cronSyncOne (fun _ => Except.ok ⟨"EUR", 500, 12000, 1500⟩) "2026-01-01" "t1"
          ⟨[], [], [], [], [], []⟩
          ⟨"cn1", "s1", "stripe", "acct_1", "tok", none⟩).1
        ⟨"cn1", "s1", "stripe", "acct_1", "tok", none⟩).1).startup_metrics_current.find?
        (fun r => r.startup_id == "s1") =
      some (currentRowOf "s1" ⟨"EUR", 700, 13000, 1600⟩ "stripe" "t2") :=
  cron_history_once_per_day (fun _ => Except.ok ⟨"EUR", 500, 12000, 1500⟩)
    (fun _ => Except.ok ⟨"EUR", 700, 13000, 1600⟩) "2026-01-01" "t1" "t2"
    ⟨[], [], [], [], [], []⟩ ⟨"cn1", "s1", "stripe", "acct_1", "tok", none⟩
    ⟨"EUR", 500, 12000, 1500⟩ ⟨"EUR", 700, 13000, 1600⟩ rfl rfl rfl

/-- C3, counterexample: completing the OAuth callback twice for the
same startup on the same calendar day (each completion running its
immediate metrics sync) leaves two history rows for (startup, day),
refuting the claim that any two same-day syncs leave exactly one. -/
theorem history_duplicated_by_callback_resync :
    (historyFor
        ((callbackGET (fun _ => Except.ok ⟨some "acct_1", some "tok", none⟩)
          (fun _ => Except.ok ⟨"EUR", 500, 12000, 1500⟩) "cn2" "t2" "2026-01-01"
          (some "code2") (some "s1")
          ((callbackGET (fun _ => Except.ok ⟨some "acct_1", some "tok", none⟩)
            (fun _ => Except.ok ⟨"EUR", 500, 12000, 1500⟩) "cn1" "t1" "2026-01-01"
            (some "code1") (some "s1")
            ⟨[⟨"s1", "acme"⟩], [], [], [], [], []⟩).2)).2).startup_metrics_history
        "s1" "2026-01-01").length = 2 := by decide

/- ===================================================================
   Tokenless-connection exclusion
   =================================================================== -/

theorem cronSyncOne_connections (fetch : AdapterConfig → Except String ProviderMetrics)
    (today now : String) (db : Db) (conn0 : SyncConnection) :
    ((cronSyncOne fetch today now db conn0).1).provider_connections =
      match fetch (syncConfigOf conn0) with
      | .error _ => db.provider_connections
      | .ok _ => updateConnectionSynced conn0.id now db.provider_connections := by
  unfold cronSyncOne
  cases hf : fetch (syncConfigOf conn0) with
  | error msg => rfl
  | ok m =>
    by_cases h :
        (historyFor db.startup_metrics_history conn0.startup_id today).length == 1 <;>
      simp [h]

theorem mem_connections_cronSyncAll (fetch : AdapterConfig → Except String ProviderMetrics)
    (today now : String) (conns : List SyncConnection) (db : Db) (conn : ConnectionRow)
    (hmem : conn ∈ db.provider_connections) (hids : ∀ c ∈ conns, c.id ≠ conn.id) :
    conn ∈ ((cronSyncAll fetch today now db conns).1).provider_connections := by
  induction conns generalizing db with
  | nil => exact hmem
  | cons c cs ih =>
    have hstep : conn ∈ ((cronSyncOne fetch today now db c).1).provider_connections := by
      rw [cronSyncOne_connections]
      cases hf : fetch (syncConfigOf c) with
      | error msg => exact hmem
      | ok m =>
        have hne : (conn.id == c.id) = false :=
          beq_eq_false_iff_ne.mpr (fun h => hids c (List.mem_cons_self c cs) h.symm)
        have hfix : (fun x : ConnectionRow =>
            if x.id == c.id then { x with last_synced_at := now, updated_at := now } else x)
            conn = conn := by
          simp [hne]
        have hm2 := List.mem_map_of_mem (fun x : ConnectionRow =>
          if x.id == c.id then { x with last_synced_at := now, updated_at := now } else x) hmem
        rw [hfix] at hm2
        simpa [updateConnectionSynced] using hm2
    exact ih _ hstep (fun c2 hc2 => hids c2 (List.mem_cons_of_mem c hc2))

/-- C10: a connection with status connected but no stored token row is
silently excluded from the batch sync: it never appears in the
connection list feeding the results (so it is in neither the synced nor
the failed count), and its row — in particular last_synced_at — is left
untouched by the batch sync. -/
theorem tokenless_connection_excluded
    (conn : ConnectionRow) (db : Db) (secret auth : Option String)
    (fetch : AdapterConfig → Except String ProviderMetrics) (today now : String)
    (hmem : conn ∈ db.provider_connections)
    (hnotok : ∀ t ∈ db.provider_tokens, t.provider_connection_id ≠ conn.id) :
    (∀ c ∈ getConnectionsToSync db, c.id ≠ conn.id) ∧
    conn ∈ ((cronGET secret auth fetch today now db).2).provider_connections := by
  have hpart1 : ∀ c ∈ getConnectionsToSync db, c.id ≠ conn.id := by
    intro c hc
    unfold getConnectionsToSync at hc
    rcases List.mem_filterMap.mp hc with ⟨c0, hc0mem, hc0⟩
    cases htf : db.provider_tokens.filter (fun t => t.provider_connection_id == c0.id) with
    | nil =>
      rw [htf] at hc0
      cases hc0
    | cons t ts =>
      rw [htf] at hc0
      have hcid : c.id = c0.id := by
        injection hc0 with hc0
        rw [← hc0]
      have htmem : t ∈ db.provider_tokens ∧ (t.provider_connection_id == c0.id) = true := by
        have : t ∈ db.provider_tokens.filter (fun t => t.provider_connection_id == c0.id) := by
          rw [htf]
          exact List.mem_cons_self t ts
        exact List.mem_filter.mp this
      intro heq
      apply hnotok t htmem.1
      have : t.provider_connection_id = c0.id := by
        have h2 := htmem.2
        exact eq_of_beq h2
      rw [this, ← hcid, heq]
  refine ⟨hpart1, ?_⟩
  unfold cronGET
  cases secret with
  | none =>
    exact mem_connections_cronSyncAll fetch today now _ db conn hmem hpart1
  | some s =>
    by_cases hb : (auth == some ("Bearer " ++ s)) = true
    · simp only [hb, Bool.not_true, Bool.false_eq_true, if_false]
      exact mem_connections_cronSyncAll fetch today now _ db conn hmem hpart1
    · simp only [Bool.not_eq_true] at hb
      simp only [hb, Bool.not_false, if_true]
      exact hmem

/-- Witness for C10: a connected connection with no token row, in a
store where it is the only connection. -/
theorem tokenless_connection_excluded_witness :
    (∀ c ∈ getConnectionsToSync
        ⟨[], [⟨"cn1", "s1", "stripe", "acct_1", "connected", "t0", "t9", "t0"⟩], [], [], [], []⟩,
      c.id ≠ "cn1") ∧
    (⟨"cn1", "s1", "stripe", "acct_1", "connected", "t0", "t9", "t0"⟩ : ConnectionRow) ∈
      ((cronGET none none (fun _ => Except.error "e") "d" "t"
        ⟨[], [⟨"cn1", "s1", "stripe", "acct_1", "connected", "t0", "t9", "t0"⟩],
         [], [], [], []⟩).2).provider_connections :=
  tokenless_connection_excluded
    ⟨"cn1", "s1", "stripe", "acct_1", "connected", "t0", "t9", "t0"⟩
    ⟨[], [⟨"cn1", "s1", "stripe", "acct_1", "connected", "t0", "t9", "t0"⟩], [], [], [], []⟩
    none none (fun _ => Except.error "e") "d" "t"
    (by decide) (by decide)

/- ===================================================================
   OAuth-callback connection upsert claims
   =================================================================== -/

theorem callbackGET_startups (exchange : String → Except String OAuthToken)
    (fetch : AdapterConfig → Except String ProviderMetrics)
    (newId now today : String) (code state : Option String) (db : Db) :
    ((callbackGET exchange fetch newId now today code state db).2).startups =
      db.startups := by
  unfold callbackGET
  rcases code with _ | c
  · rfl
  rcases state with _ | s
  · rfl
  simp only []
  repeat' (first | rfl | split)

/-- The provider_connections table after the callback's upsert by the
(startup, stripe) pair: update the found row, or append a fresh one. -/
def connUpsertResult (tbl : List ConnectionRow) (sid a now newId : String) :
    List ConnectionRow :=
  match tbl.find? (fun c => c.startup_id == sid && c.provider == "stripe") with
  | some ec => tbl.map (fun c => if c.id == ec.id then markConnected a now c else c)
  | none => tbl ++
      [{ id := newId, startup_id := sid, provider := "stripe",
         provider_account_id := a, status := "connected",
         connected_at := now, last_synced_at := now, updated_at := now }]

theorem callbackGET_connections (exchange : String → Except String OAuthToken)
    (fetch : AdapterConfig → Except String ProviderMetrics)
    (newId now today codev sid slug a tok : String) (rt : Option String) (db : Db)
    (hx : exchange codev = Except.ok ⟨some a, some tok, rt⟩)
    (hs : db.startups.find? (fun s => s.id == sid) = some ⟨sid, slug⟩) :
    ((callbackGET exchange fetch newId now today
        (some codev) (some sid) db).2).provider_connections =
      connUpsertResult db.provider_connections sid a now newId := by
  unfold callbackGET connUpsertResult
  simp only [hx, hs]
  repeat' (first | rfl | split)

theorem pair_upsert_count (tbl : List ConnectionRow) (sid a now newId : String)
    (hcount : (tbl.filter (fun c => c.startup_id == sid && c.provider == "stripe")).length ≤ 1) :
    ((connUpsertResult tbl sid a now newId).filter
      (fun c => c.startup_id == sid && c.provider == "stripe")).length = 1 := by
  unfold connUpsertResult
  cases hf : tbl.find? (fun c => c.startup_id == sid && c.provider == "stripe") with
  | none =>
    have hnil : tbl.filter (fun c => c.startup_id == sid && c.provider == "stripe") = [] := by
      rw [find?_eq_head_filter] at hf
      exact List.head?_eq_none_iff.mp hf
    simp [List.filter_append, hnil]
  | some ec =>
    rw [length_filter_map_eq]
    · have hne : tbl.filter (fun c => c.startup_id == sid && c.provider == "stripe") ≠ [] := by
        rw [find?_eq_head_filter] at hf
        intro hnil
        rw [hnil] at hf
        cases hf
      have hpos := List.length_pos.mpr hne
      omega
    · intro x
      by_cases h : (x.id == ec.id) = true <;> simp [h, markConnected]

theorem pair_upsert_values (tbl : List ConnectionRow) (sid a now newId : String)
    (r0 : ConnectionRow)
    (hone : tbl.filter (fun c => c.startup_id == sid && c.provider == "stripe") = [r0]) :
    ∀ r ∈ connUpsertResult tbl sid a now newId,
      (r.startup_id == sid && r.provider == "stripe") = true →
      r.provider_account_id = a ∧ r.status = "connected" ∧
      r.connected_at = now ∧ r.last_synced_at = now := by
  have hf : tbl.find? (fun c => c.startup_id == sid && c.provider == "stripe") = some r0 := by
    rw [find?_eq_head_filter, hone]
    rfl
  unfold connUpsertResult
  rw [hf]
  intro r hr hpr
  rcases List.mem_map.mp hr with ⟨x, hx, rfl⟩
  by_cases hid : (x.id == r0.id) = true
  · simp [hid, markConnected]
  · rw [if_neg (by simp [hid])] at hpr ⊢
    have hxin : x ∈ tbl.filter (fun c => c.startup_id == sid && c.provider == "stripe") :=
      List.mem_filter.mpr ⟨hx, hpr⟩
    rw [hone] at hxin
    have hx0 : x = r0 := by simpa using hxin
    exact absurd (by rw [hx0]; simp : (x.id == r0.id) = true) hid

/-- C4: completing the OAuth callback twice for the same startup with
two different valid authorization codes (both token exchanges
succeeding) leaves exactly one provider_connections row for the
(startup, stripe) pair, and that row carries the second call's account
id, connected status and timestamps: the second call updates the
existing row instead of inserting a new one. -/
theorem callback_connection_idempotent
    (exchange1 exchange2 : String → Except String OAuthToken)
    (fetch1 fetch2 : AdapterConfig → Except String ProviderMetrics)
    (newId1 newId2 now1 now2 today1 today2 : String)
    (code1 code2 sid slug a1 a2 tok1 tok2 : String) (rt1 rt2 : Option String) (db : Db)
    (hx1 : exchange1 code1 = Except.ok ⟨some a1, some tok1, rt1⟩)
    (hx2 : exchange2 code2 = Except.ok ⟨some a2, some tok2, rt2⟩)
    (hs : db.startups.find? (fun s => s.id == sid) = some ⟨sid, slug⟩)
    (hcount : (pairConnections db sid "stripe").length ≤ 1) :
    (pairConnections
        ((callbackGET exchange2 fetch2 newId2 now2 today2 (some code2) (some sid)
          ((callbackGET exchange1 fetch1 newId1 now1 today1
            (some code1) (some sid) db).2)).2)
        sid "stripe").length = 1 ∧
    ∀ r ∈ ((callbackGET exchange2 fetch2 newId2 now2 today2 (some code2) (some sid)
        ((callbackGET exchange1 fetch1 newId1 now1 today1
          (some code1) (some sid) db).2)).2).provider_connections,
      (r.startup_id == sid && r.provider == "stripe") = true →
      r.provider_account_id = a2 ∧ r.status = "connected" ∧
      r.connected_at = now2 ∧ r.last_synced_at = now2 := by
  have hconn1 := callbackGET_connections exchange1 fetch1 newId1 now1 today1
    code1 sid slug a1 tok1 rt1 db hx1 hs
  have hcount1 : (((callbackGET exchange1 fetch1 newId1 now1 today1
      (some code1) (some sid) db).2).provider_connections.filter
      (fun c => c.startup_id == sid && c.provider == "stripe")).length = 1 := by
    rw [hconn1]
    exact pair_upsert_count _ sid a1 now1 newId1 hcount
  have hs1 : (((callbackGET exchange1 fetch1 newId1 now1 today1
      (some code1) (some sid) db).2).startups.find? (fun s => s.id == sid)) =
      some ⟨sid, slug⟩ := by
    rw [callbackGET_startups]
    exact hs
  have hconn2 := callbackGET_connections exchange2 fetch2 newId2 now2 today2
    code2 sid slug a2 tok2 rt2 _ hx2 hs1
  obtain ⟨r0, hr0⟩ := List.length_eq_one.mp hcount1
  constructor
  · unfold pairConnections
    rw [hconn2]
    exact pair_upsert_count _ sid a2 now2 newId2 (le_of_eq hcount1)
  · intro r hr hpr
    rw [hconn2] at hr
    exact pair_upsert_values _ sid a2 now2 newId2 r0 hr0 r hr hpr

/-- Witness for C4 at a concrete store with one startup and no prior
connection. -/
theorem callback_connection_idempotent_witness :
    (pairConnections
        ((callbackGET (fun _ => Except.ok ⟨some "acct_2", some "tok_2", none⟩)
          (fun _ => Except.error "skip") "cn2" "t2" "d" (some "code2") (some "s1")
          ((callbackGET (fun _ => Except.ok ⟨some "acct_1", some "tok_1", none⟩)
            (fun _ => Except.error "skip") "cn1" "t1" "d" (some "code1") (some "s1")
            ⟨[⟨"s1", "acme"⟩], [], [], [], [], []⟩).2)).2)
        "s1" "stripe").length = 1 ∧
    ∀ r ∈ ((callbackGET (fun _ => Except.ok ⟨some "acct_2", some "tok_2", none⟩)
        (fun _ => Except.error "skip") "cn2" "t2" "d" (some "code2") (some "s1")
        ((callbackGET (fun _ => Except.ok ⟨some "acct_1", some "tok_1", none⟩)
          (fun _ => Except.error "skip") "cn1" "t1" "d" (some "code1") (some "s1")
          ⟨[⟨"s1", "acme"⟩], [], [], [], [], []⟩).2)).2).provider_connections,
      (r.startup_id == "s1" && r.provider == "stripe") = true →
      r.provider_account_id = "acct_2" ∧ r.status = "connected" ∧
      r.connected_at = "t2" ∧ r.last_synced_at = "t2" :=
  callback_connection_idempotent
    (fun _ => Except.ok ⟨some "acct_1", some "tok_1", none⟩)
    (fun _ => Except.ok ⟨some "acct_2", some "tok_2", none⟩)
    (fun _ => Except.error "skip") (fun _ => Except.error "skip")
    "cn1" "cn2" "t1" "t2" "d" "d" "code1" "code2" "s1" "acme"
    "acct_1" "acct_2" "tok_1" "tok_2" none none
    ⟨[⟨"s1", "acme"⟩], [], [], [], [], []⟩
    rfl rfl rfl (by decide)

/- ===================================================================
   Webhook checkout-completed claims
   =================================================================== -/

theorem handleCheckout_rows (sess : CheckoutSession)
    (startupId type customerId subscriptionId today now : String) (db : Db)
    (r0 : SponsorshipRow)
    (hm1 : sess.metadata_startup_id = some startupId)
    (hm2 : sess.metadata_type = some type)
    (hm3 : sess.customer = some customerId)
    (hm4 : sess.subscription = some subscriptionId)
    (hone : db.sponsorships.filter
      (fun sp => sp.stripe_checkout_session_id == some sess.id) = [r0]) :
    (handleCheckoutSessionCompleted sess today now db).sponsorships =
      db.sponsorships.map (fun sp => if sp.id == r0.id then
        activateSponsorshipRow customerId subscriptionId today now sp else sp) := by
  unfold handleCheckoutSessionCompleted
  simp only [hm1, hm2, hm3, hm4, hone]
  simp

theorem handleCheckout_active (sess : CheckoutSession)
    (startupId type customerId subscriptionId today now : String) (db : Db)
    (r0 : SponsorshipRow)
    (hm1 : sess.metadata_startup_id = some startupId)
    (hm2 : sess.metadata_type = some type)
    (hm3 : sess.customer = some customerId)
    (hm4 : sess.subscription = some subscriptionId)
    (hone : db.sponsorships.filter
      (fun sp => sp.stripe_checkout_session_id == some sess.id) = [r0]) :
    ∀ sp ∈ (handleCheckoutSessionCompleted sess today now db).sponsorships,
      sp.stripe_checkout_session_id = some sess.id →
      sp.status = "active" ∧ sp.start_date = some today := by
  rw [handleCheckout_rows sess startupId type customerId subscriptionId today now db r0
    hm1 hm2 hm3 hm4 hone]
  intro sp hsp hsess
  rcases List.mem_map.mp hsp with ⟨x, hx, rfl⟩
  by_cases hid : (x.id == r0.id) = true
  · rw [if_pos hid]
    exact ⟨rfl, rfl⟩
  · rw [if_neg (by simp [hid])] at hsess ⊢
    have hxin : x ∈ db.sponsorships.filter
        (fun sp => sp.stripe_checkout_session_id == some sess.id) :=
      List.mem_filter.mpr ⟨hx, by simp [hsess]⟩
    rw [hone] at hxin
    have hx0 : x = r0 := by simpa using hxin
    exact absurd (by rw [hx0]; simp : (x.id == r0.id) = true) hid

theorem handleCheckout_filter_length (sess : CheckoutSession)
    (startupId type customerId subscriptionId today now : String) (db : Db)
    (r0 : SponsorshipRow)
    (hm1 : sess.metadata_startup_id = some startupId)
    (hm2 : sess.metadata_type = some type)
    (hm3 : sess.customer = some customerId)
    (hm4 : sess.subscription = some subscriptionId)
    (hone : db.sponsorships.filter
      (fun sp => sp.stripe_checkout_session_id == some sess.id) = [r0]) :
    ((handleCheckoutSessionCompleted sess today now db).sponsorships.filter
      (fun sp => sp.stripe_checkout_session_id == some sess.id)).length = 1 := by
  rw [handleCheckout_rows sess startupId type customerId subscriptionId today now db r0
    hm1 hm2 hm3 hm4 hone]
  rw [length_filter_map_eq]
  · rw [hone]
    rfl
  · intro x
    by_cases h : (x.id == r0.id) = true <;> simp [h, activateSponsorshipRow]

/-- C5, amended: delivering the same checkout.session.completed event
twice on the same calendar day leaves the sponsorship active with the
same start_date after the second delivery as after the first; the
handler unconditionally re-sets start_date to the delivery day, so this
holds per-day only (a redelivery on a later day advances the start
date, as the counterexample shows). -/
theorem webhook_checkout_sameday_idempotent (sess : CheckoutSession)
    (startupId type customerId subscriptionId today now1 now2 : String) (db : Db)
    (r0 : SponsorshipRow)
    (hm1 : sess.metadata_startup_id = some startupId)
    (hm2 : sess.metadata_type = some type)
    (hm3 : sess.customer = some customerId)
    (hm4 : sess.subscription = some subscriptionId)
    (hone : db.sponsorships.filter
      (fun sp => sp.stripe_checkout_session_id == some sess.id) = [r0]) :
    (∀ sp ∈ (handleCheckoutSessionCompleted sess today now1 db).sponsorships,
      sp.stripe_checkout_session_id = some sess.id →
      sp.status = "active" ∧ sp.start_date = some today) ∧
    (∀ sp ∈ (handleCheckoutSessionCompleted sess today now2
        (handleCheckoutSessionCompleted sess today now1 db)).sponsorships,
      sp.stripe_checkout_session_id = some sess.id →
      sp.status = "active" ∧ sp.start_date = some today) := by
  refine ⟨handleCheckout_active sess startupId type customerId subscriptionId today now1 db r0
    hm1 hm2 hm3 hm4 hone, ?_⟩
  have hlen := handleCheckout_filter_length sess startupId type customerId subscriptionId
    today now1 db r0 hm1 hm2 hm3 hm4 hone
  obtain ⟨r1, hr1⟩ := List.length_eq_one.mp hlen
  exact handleCheckout_active sess startupId type customerId subscriptionId today now2 _ r1
    hm1 hm2 hm3 hm4 hr1

/-- Witness for C5's amended theorem: a pending sponsorship activated
by two same-day deliveries of its checkout-completed event. -/
theorem webhook_checkout_sameday_idempotent_witness :
    (∀ sp ∈ (handleCheckoutSessionCompleted
        ⟨"cs_1", some "s1", some "featured", some "cus_1", some "sub_1"⟩
        "2026-01-01" "t1"
        ⟨[], [], [], [], [],
         [⟨"sp1", "s1", "featured", none, "pending", none, none, some "cs_1",
           none, none, 0, "t0"⟩]⟩).sponsorships,
      sp.stripe_checkout_session_id = some "cs_1" →
      sp.status = "active" ∧ sp.start_date = some "2026-01-01") ∧
    (∀ sp ∈ (handleCheckoutSessionCompleted
        ⟨"cs_1", some "s1", some "featured", some "cus_1", some "sub_1"⟩
        "2026-01-01" "t2"
        (handleCheckoutSessionCompleted
          ⟨"cs_1", some "s1", some "featured", some "cus_1", some "sub_1"⟩
          "2026-01-01" "t1"
          ⟨[], [], [], [], [],
           [⟨"sp1", "s1", "featured", none, "pending", none, none, some "cs_1",
             none, none, 0, "t0"⟩]⟩)).sponsorships,
      sp.stripe_checkout_session_id = some "cs_1" →
      sp.status = "active" ∧ sp.start_date = some "2026-01-01") :=
  webhook_checkout_sameday_idempotent
    ⟨"cs_1", some "s1", some "featured", some "cus_1", some "sub_1"⟩
    "s1" "featured" "cus_1" "sub_1" "2026-01-01" "t1" "t2"
    ⟨[], [], [], [], [],
     [⟨"sp1", "s1", "featured", none, "pending", none, none, some "cs_1",
       none, none, 0, "t0"⟩]⟩
    ⟨"sp1", "s1", "featured", none, "pending", none, none, some "cs_1",
     none, none, 0, "t0"⟩
    rfl rfl rfl rfl (by decide)

/-- C5, counterexample: redelivering the same checkout-completed event
on the next calendar day re-activates the sponsorship but advances its
start_date to the redelivery day, so the start date after the second
delivery differs from the one after the first. -/
theorem webhook_checkout_redelivery_advances_start_date :
    ((handleCheckoutSessionCompleted
        ⟨"cs_1", some "s1", some "featured", some "cus_1", some "sub_1"⟩
        "2026-01-01" "t1"
        ⟨[], [], [], [], [],
         [⟨"sp1", "s1", "featured", none, "pending", none, none, some "cs_1",
           none, none, 0, "t0"⟩]⟩).sponsorships.map
      (fun sp => (sp.status, sp.start_date)) = [("active", some "2026-01-01")]) ∧
    ((handleCheckoutSessionCompleted
        ⟨"cs_1", some "s1", some "featured", some "cus_1", some "sub_1"⟩
        "2026-01-02" "t2"
        (handleCheckoutSessionCompleted
          ⟨"cs_1", some "s1", some "featured", some "cus_1", some "sub_1"⟩
          "2026-01-01" "t1"
          ⟨[], [], [], [], [],
           [⟨"sp1", "s1", "featured", none, "pending", none, none, some "cs_1",
             none, none, 0, "t0"⟩]⟩)).sponsorships.map
      (fun sp => (sp.status, sp.start_date)) = [("active", some "2026-01-02")]) ∧
    ¬([(("active" : String), some "2026-01-01")] =
      [(("active" : String), some "2026-01-02")]) := by
  refine ⟨by decide, by decide, by decide⟩

/- ===================================================================
   Slug claims
   =================================================================== -/

theorem toLower_isUpper_eq_false (c : Char) : (Char.toLower c).isUpper = false := by
  unfold Char.toLower
  simp only []
  by_cases h : c.toNat ≥ 65 ∧ c.toNat ≤ 90
  · rw [if_pos h]
    have hv : Nat.isValidChar (c.toNat + 32) := Or.inl (by omega)
    rw [Char.ofNat, dif_pos hv]
    simp only [Char.isUpper]
    have e1 : (Char.ofNatAux (c.toNat + 32) hv).val.toNat = c.toNat + 32 := rfl
    rw [Bool.and_eq_false_iff]
    right
    rw [decide_eq_false_iff_not]
    intro hge
    have h2 : (Char.ofNatAux (c.toNat + 32) hv).val.toNat ≤ (90 : UInt32).toNat := hge
    rw [e1] at h2
    have h3 : (90 : UInt32).toNat = 90 := rfl
    omega
  · rw [if_neg h]
    simp only [Char.isUpper]
    rw [Bool.and_eq_false_iff]
    rcases Nat.lt_or_ge c.toNat 65 with hlt | hge
    · left
      rw [decide_eq_false_iff_not]
      intro hcon
      have h2 : (65 : UInt32).toNat ≤ c.val.toNat := hcon
      have h3 : (65 : UInt32).toNat = 65 := rfl
      have hn : c.toNat = c.val.toNat := rfl
      omega
    · right
      rw [decide_eq_false_iff_not]
      intro hcon
      have h2 : c.val.toNat ≤ (90 : UInt32).toNat := hcon
      have h3 : (90 : UInt32).toNat = 90 := rfl
      have hn : c.toNat = c.val.toNat := rfl
      omega

theorem mem_collapseRunsAux (p : Char → Bool) (b : Bool) (l : List Char) :
    ∀ c ∈ collapseRunsAux p b l, c = '-' ∨ (c ∈ l ∧ p c = false) := by
  induction l generalizing b with
  | nil => intro c hc; cases hc
  | cons a cs ih =>
    intro c hc
    unfold collapseRunsAux at hc
    by_cases ha : p a = true
    · rw [if_pos ha] at hc
      rcases List.mem_append.mp hc with h1 | h2
      · left
        cases b with
        | true => cases h1
        | false => simpa using h1
      · rcases ih true c h2 with h | ⟨hm, hp⟩
        · exact Or.inl h
        · exact Or.inr ⟨List.mem_cons_of_mem a hm, hp⟩
    · rw [if_neg ha] at hc
      rcases List.mem_cons.mp hc with rfl | h2
      · right
        exact ⟨List.mem_cons_self _ _, by simpa using ha⟩
      · rcases ih false c h2 with h | ⟨hm, hp⟩
        · exact Or.inl h
        · exact Or.inr ⟨List.mem_cons_of_mem a hm, hp⟩

theorem head_collapseRunsAux_inRun (p : Char → Bool) (hp : p '-' = true) (l : List Char) :
    ∀ c, (collapseRunsAux p true l).head? = some c → c ≠ '-' := by
  induction l with
  | nil => intro c hc; cases hc
  | cons a cs ih =>
    intro c hc
    unfold collapseRunsAux at hc
    by_cases ha : p a = true
    · rw [if_pos ha] at hc
      simp only [if_true, List.nil_append] at hc
      exact ih c hc
    · rw [if_neg ha] at hc
      simp only [List.head?_cons, Option.some.injEq] at hc
      subst hc
      intro hcon
      rw [hcon] at ha
      exact ha hp

theorem chain_collapseRunsAux (p : Char → Bool) (hp : p '-' = true) (l : List Char)
    (b : Bool) :
    (collapseRunsAux p b l).Chain' (fun x y => ¬(x = '-' ∧ y = '-')) := by
  induction l generalizing b with
  | nil => exact List.chain'_nil
  | cons a cs ih =>
    unfold collapseRunsAux
    by_cases ha : p a = true
    · rw [if_pos ha]
      cases b with
      | true => simpa using ih true
      | false =>
        simp only [Bool.false_eq_true, if_false, List.singleton_append]
        rw [List.chain'_cons']
        refine ⟨?_, ih true⟩
        intro y hy
        have hne := head_collapseRunsAux_inRun p hp cs y hy
        intro hcon
        exact hne hcon.2
    · rw [if_neg ha]
      rw [List.chain'_cons']
      refine ⟨?_, ih false⟩
      intro y hy hcon
      rw [hcon.1] at ha
      exact ha hp

theorem mem_dropEdges (p : Char → Bool) (l : List Char) :
    ∀ c ∈ dropEdges p l, c ∈ l := by
  intro c hc
  unfold dropEdges at hc
  have h1 := List.mem_reverse.mp hc
  have h2 := (List.dropWhile_sublist _).subset h1
  have h3 := List.mem_reverse.mp h2
  exact (List.dropWhile_sublist _).subset h3

theorem chain_dropEdges (p : Char → Bool) (l : List Char)
    (h : l.Chain' (fun x y => ¬(x = '-' ∧ y = '-'))) :
    (dropEdges p l).Chain' (fun x y => ¬(x = '-' ∧ y = '-')) := by
  unfold dropEdges
  have hsym : ∀ x y : Char, ¬(x = '-' ∧ y = '-') → ¬(y = '-' ∧ x = '-') := by
    intro x y hxy hcon
    exact hxy ⟨hcon.2, hcon.1⟩
  have h1 : (l.dropWhile p).Chain' (fun x y => ¬(x = '-' ∧ y = '-')) :=
    h.suffix (List.dropWhile_suffix p)
  have h2 : ((l.dropWhile p).reverse).Chain' (fun x y => ¬(x = '-' ∧ y = '-')) := by
    rw [List.chain'_reverse]
    exact h1.imp (fun a b hab => hsym a b hab)
  have h3 := h2.suffix (List.dropWhile_suffix p)
  rw [List.chain'_reverse]
  exact h3.imp (fun a b hab => hsym a b hab)

theorem head?_dropEdges (p : Char → Bool) (l : List Char) :
    ∀ c, (dropEdges p l).head? = some c → p c = false := by
  intro c hc
  unfold dropEdges at hc
  rw [List.head?_reverse] at hc
  rcases hx : ((l.dropWhile p).reverse).dropWhile p with _ | ⟨d, ds⟩
  · rw [hx] at hc
    cases hc
  · rw [hx] at hc
    obtain ⟨pre, hpre⟩ := List.dropWhile_suffix (l := (l.dropWhile p).reverse) p
    rw [hx] at hpre
    have hlast : ((l.dropWhile p).reverse).getLast? = (d :: ds).getLast? := by
      rw [← hpre, List.getLast?_append]
      have : (d :: ds).getLast? ≠ none := by
        simp [List.getLast?_eq_none_iff]
      rcases ho : (d :: ds).getLast? with _ | x
      · exact absurd ho this
      · simp [Option.or]
    rw [List.getLast?_reverse] at hlast
    rw [← hlast] at hc
    have := List.head?_dropWhile_not p l
    rw [hc] at this
    exact this

theorem getLast?_dropEdges (p : Char → Bool) (l : List Char) :
    ∀ c, (dropEdges p l).getLast? = some c → p c = false := by
  intro c hc
  unfold dropEdges at hc
  rw [List.getLast?_reverse] at hc
  have := List.head?_dropWhile_not p ((l.dropWhile p).reverse)
  rw [hc] at this
  exact this

/-- C8, counterexample: the slug code deletes punctuation that is
neither word character, whitespace nor hyphen instead of collapsing it
to a hyphen: the name a.b produces the slug ab, while the claimed rule
(non-alphanumeric runs collapsed to hyphens) would produce a-b. -/
theorem slug_punctuation_removed_not_hyphenated :
    createStartupSlug "a.b" = "ab" ∧ claimSlugRule "a.b" = "a-b" ∧
    ("ab" : String) ≠ "a-b" := by
  refine ⟨by rfl, by rfl, by decide⟩

/-- C8, amended: the slug is the name lowercased and trimmed, with
characters that are neither word characters (ASCII letters, digits,
underscore) nor whitespace nor hyphens removed entirely — punctuation
such as a period is deleted, not collapsed — and runs of whitespace,
underscores and hyphens collapsed to single hyphens, with leading and
trailing hyphens stripped; "Acme Inc." yields "acme-inc".  Formally:
the concrete instances, plus, for every name, the slug holds only
lowercase ASCII letters, digits and hyphens, never two adjacent
hyphens, and no hyphen at either end. -/
theorem createStartupSlug_amended :
    createStartupSlug "Acme Inc." = "acme-inc" ∧
    createStartupSlug "a.b" = "ab" ∧
    createStartupSlug "a_b  c" = "a-b-c" ∧
    ∀ name : String,
      (∀ c ∈ (createStartupSlug name).data,
        (('a' ≤ c && c ≤ 'z') || ('0' ≤ c && c ≤ '9') || c = '-') = true) ∧
      (createStartupSlug name).data.Chain' (fun x y => ¬(x = '-' ∧ y = '-')) ∧
      (∀ c, (createStartupSlug name).data.head? = some c → c ≠ '-') ∧
      (∀ c, (createStartupSlug name).data.getLast? = some c → c ≠ '-') := by
  refine ⟨by rfl, by rfl, by rfl, ?_⟩
  intro name
  have hdata : (createStartupSlug name).data =
      dropEdges (fun c => c = '-') (collapseRuns isSepChar
        ((dropEdges isJsWhitespace (name.data.map Char.toLower)).filter
          (fun c => isWordChar c || isJsWhitespace c || c = '-'))) := rfl
  refine ⟨?_, ?_, ?_, ?_⟩
  · intro c hc
    rw [hdata] at hc
    have h1 := mem_dropEdges _ _ c hc
    rcases mem_collapseRunsAux isSepChar false _ c h1 with rfl | ⟨hm, hsep⟩
    · simp
    · have h2 := List.mem_filter.mp hm
      have h3 : c ∈ name.data.map Char.toLower := mem_dropEdges _ _ c h2.1
      rcases List.mem_map.mp h3 with ⟨c0, _, rfl⟩
      have hup := toLower_isUpper_eq_false c0
      have hw := h2.2
      simp only [isWordChar, isJsWhitespace, Bool.or_eq_true, Bool.and_eq_true,
        decide_eq_true_eq] at hw
      simp only [isSepChar, isJsWhitespace, Bool.or_eq_false_iff,
        decide_eq_false_iff_not] at hsep
      simp only [Char.isUpper, Bool.and_eq_false_iff, decide_eq_false_iff_not] at hup
      simp only [Bool.or_eq_true, Bool.and_eq_true, decide_eq_true_eq]
      rcases hw with ((((hl | hu) | hd) | hund) | hws) | hdash
      · exact Or.inl (Or.inl hl)
      · exfalso
        have h65 : (65 : UInt32) ≤ (Char.toLower c0).val := Char.le_def.mp hu.1
        have h90 : (Char.toLower c0).val ≤ (90 : UInt32) := Char.le_def.mp hu.2
        rcases hup with h | h
        · exact h h65
        · exact h h90
      · exact Or.inl (Or.inr hd)
      · exact absurd hund hsep.1.2
      · rcases hsep.1.1 with ⟨⟨⟨⟨⟨hs1, hs2⟩, hs3⟩, hs4⟩, hs5⟩, hs6⟩
        rcases hws with ((((h | h) | h) | h) | h) | h
        · exact absurd h hs1
        · exact absurd h hs2
        · exact absurd h hs3
        · exact absurd h hs4
        · exact absurd h hs5
        · exact absurd h hs6
      · exact Or.inr hdash
  · rw [hdata]
    exact chain_dropEdges _ _ (chain_collapseRunsAux isSepChar (by decide) _ false)
  · intro c hc
    rw [hdata] at hc
    have h := head?_dropEdges (fun c => c = '-') _ c hc
    simpa using h
  · intro c hc
    rw [hdata] at hc
    have h := getLast?_dropEdges (fun c => c = '-') _ c hc
    simpa using h
